import Mathlib

/-!
Shallow embedding of `current_city_weather.py` (avihaie/real_time_open_weather).

The program is a thin client over the OpenWeatherMap HTTP API: it validates
inputs through property setters, builds a GET URL, fetches an XML document,
writes it to a scratch file, parses it with `xml.dom.minidom`, stores a
record of five weather attributes in a module-level dictionary
`city_weather_dict`, and prints a formatted report.

Python dynamic values that flow through the setters and the constructor are
modelled by `PyVal` (string, integer, or `None`); Python exceptions by the
`PyExc` kind enumeration; the mutable world (scratch file, global report
dictionary, standard output) by `World`; a raised exception propagating out
of a function by the error side of `Except (World × PyExc)`, carrying the
world as it stood when the exception escaped.
-/

set_option autoImplicit false

namespace Weather

/-- A Python runtime value as it appears at the client's boundaries:
a string, an integer, or `None`. -/
inductive PyVal where
  | str : String → PyVal
  | int : Int → PyVal
  | none : PyVal
deriving DecidableEq, Repr

/-- Python truthiness for the values of `PyVal`: empty string, zero and
`None` are falsy. Used by `if val:` in the `api_key` setter. -/
def truthy : PyVal → Bool
  | PyVal.str s => decide (s ≠ "")
  | PyVal.int n => decide (n ≠ 0)
  | PyVal.none => false

/-- Kinds of Python exceptions this program can raise.  `weatherExc` is the
program's own `WeatherException` (the spec's `ValidationError`); the others
are the standard-library exceptions raised by `urllib`, file operations,
`xml.dom.minidom`, dictionary and list indexing, name resolution, string
concatenation on non-strings, runaway recursion, and `argparse` rejecting a
CLI choice. -/
inductive PyExc where
  | weatherExc
  | urlError
  | osError
  | expatError
  | indexError
  | keyError
  | nameError
  | typeError
  | recursionError
  | systemExit
deriving DecidableEq, Repr

/-- `SERVER_NAME` from the source. -/
def SERVER_NAME : String := "http://api.openweathermap.org"

/-- `DATA_PATH` from the source. -/
def DATA_PATH : String := "/data/2.5/weather?q="

/-- `CITY_FILE_NAME` from the source. -/
def CITY_FILE_NAME : String := "weather.xml"

/-- `unit_conversion_dict` from the source, as an association list in the
Python dict's insertion (hence iteration) order. -/
def unit_conversion_dict : List (String × String) :=
  [("fahrenheit", "imperial"), ("celsius", "metric"), ("kelvin", "")]

/-- `unit_conversion_dict[k]` for a dynamic key: a non-string key, or a
string absent from the dict, is a `KeyError` (signalled by `Option.none`). -/
def dict_getitem : PyVal → Option String
  | PyVal.str s => (unit_conversion_dict.find? (fun p => p.fst = s)).map Prod.snd
  | _ => Option.none

/-- The `CityWeather` object's attribute state: the three name-mangled
private fields set by `__init__`, plus `mode` (always `'xml'`). -/
structure CityWeather where
  city_name : PyVal
  units : PyVal
  api_key : PyVal
  mode : String
deriving DecidableEq, Repr

/-- `CityWeather.__init__`: assigns the arguments directly to the private
fields `__city_name`, `__units`, `__api_key` and sets `mode = 'xml'`.
No setter is invoked and no validation happens. -/
def CityWeather.init (city_name units api_key : PyVal) : CityWeather :=
  ⟨city_name, units, api_key, "xml"⟩

/-- The `city_name` property setter: raises `WeatherException` when the
value is not a string, otherwise stores it.  There is no emptiness check. -/
def city_name_setter (self : CityWeather) (val : PyVal) :
    Except PyExc CityWeather :=
  match val with
  | PyVal.str s => Except.ok { self with city_name := PyVal.str s }
  | _ => Except.error PyExc.weatherExc

/-- The loop body of the `units` setter:
`for k in unit_conversion_dict: if val != k: raise WeatherException(...)`.
The loop raises at the first key that differs from `val` and only falls
through when `val` equals every key. -/
def units_setter_loop (keys : List String) (val : PyVal) : Except PyExc Unit :=
  match keys with
  | [] => Except.ok ()
  | k :: ks =>
    if val = PyVal.str k then units_setter_loop ks val
    else Except.error PyExc.weatherExc

/-- The `units` property setter: runs `units_setter_loop` over the keys of
`unit_conversion_dict` and, when the loop completes, stores the value. -/
def units_setter (self : CityWeather) (val : PyVal) :
    Except PyExc CityWeather :=
  match units_setter_loop (unit_conversion_dict.map Prod.fst) val with
  | Except.ok _ => Except.ok { self with units := val }
  | Except.error e => Except.error e

/-- Outcome of a call to the `api_key` setter: a new object state, a raised
exception, or Python's `RecursionError` once the interpreter's recursion
limit (the `fuel`) is exhausted. -/
inductive SetOutcome where
  | ok : CityWeather → SetOutcome
  | exc : PyExc → SetOutcome
  | recursionError : SetOutcome
deriving DecidableEq, Repr

/-- The `api_key` property setter.  Its body is
`if val: self.api_key = val  else: raise WeatherException(...)`;
the assignment targets the property itself, so a truthy value re-enters the
setter with the same argument and the private field is never written.
`fuel` bounds the recursion depth, as Python's interpreter stack does. -/
def api_key_setter (fuel : Nat) (self : CityWeather) (val : PyVal) :
    SetOutcome :=
  match fuel with
  | 0 => SetOutcome.recursionError
  | Nat.succ f =>
    if truthy val then api_key_setter f self val
    else SetOutcome.exc PyExc.weatherExc

/-- The `<temperature value unit/>` element: `getAttribute` on a missing
attribute yields `""`, so the two attributes are plain strings. -/
structure TempElem where
  value : String
  unit : String
deriving DecidableEq, Repr

/-- The `<humidity value unit/>` element. -/
structure HumidityElem where
  value : String
  unit : String
deriving DecidableEq, Repr

/-- The `<speed value name/>` element nested under `<wind>`. -/
structure SpeedElem where
  value : String
  name : String
deriving DecidableEq, Repr

/-- The `<wind>` element; its `<speed>` child may be absent, in which case
`getElementsByTagName("speed")[0]` raises `IndexError`. -/
structure WindElem where
  speed : Option SpeedElem
deriving DecidableEq, Repr

/-- The `<pressure value unit/>` element. -/
structure PressureElem where
  value : String
  unit : String
deriving DecidableEq, Repr

/-- The `<clouds value name/>` element. -/
structure CloudsElem where
  value : String
  name : String
deriving DecidableEq, Repr

/-- The `<current>` element of the provider's XML document.  Each child the
parser looks for may be absent; `getElementsByTagName(tag)` then returns an
empty list and indexing `[0]` raises `IndexError`. -/
structure CurrentElem where
  temperature : Option TempElem
  wind : Option WindElem
  humidity : Option HumidityElem
  pressure : Option PressureElem
  clouds : Option CloudsElem
deriving DecidableEq, Repr

/-- Raw bytes of an HTTP response body as written to the scratch file:
either XML that `xml.dom.minidom` parses successfully (with the `current`
element possibly absent), or data on which the parser raises
`xml.parsers.expat.ExpatError`. -/
inductive RawXml where
  | wellFormed : Option CurrentElem → RawXml
  | malformed : RawXml
deriving DecidableEq, Repr

/-- `lst[0]` on the result of `getElementsByTagName`: `IndexError` when the
element is absent. -/
def index0 {α : Type} : Option α → Except PyExc α
  | some x => Except.ok x
  | Option.none => Except.error PyExc.indexError

/-- The per-city record the program stores in `city_weather_dict`:
five attribute groups, every value kept as the string received. -/
structure CityRecord where
  temperature_val : String
  temp_unit : String
  humidity_val : String
  humidity_unit : String
  wind_val : String
  wind_desc : String
  pressure_val : String
  pressure_unit : String
  clouds_val : String
  clouds_desc : String
deriving DecidableEq, Repr

/-- `[k for k, v in unit_conversion_dict.items() if v == u]`: the keys of
`unit_conversion_dict` whose token equals `u`, in iteration order. -/
def reverse_lookup_keys (u : String) : List String :=
  (unit_conversion_dict.filter (fun p => p.snd = u)).map Prod.fst

/-- Lines 120–158 of the source without the final dictionary store: walk the
parsed document, index each expected element (in the order the source
indexes them: `current`, `temperature`, then the temperature-unit reverse
lookup, `humidity`, `wind`, `speed`, `clouds`, `pressure`) and build the
record.  A missing element surfaces as `IndexError`. -/
def extract_record (doc : Option CurrentElem) : Except PyExc CityRecord := do
  let node_current ← index0 doc
  let t ← index0 node_current.temperature
  let temperature_val := t.value
  let api_temp_unit := t.unit
  let temp_unit ←
    if api_temp_unit = "metric" then
      index0 (reverse_lookup_keys api_temp_unit).head?
    else
      Except.ok api_temp_unit
  let h ← index0 node_current.humidity
  let w ← index0 node_current.wind
  let s ← index0 w.speed
  let c ← index0 node_current.clouds
  let p ← index0 node_current.pressure
  Except.ok
    ⟨temperature_val, temp_unit, h.value, h.unit, s.value, s.name,
     p.value, p.unit, c.value, c.name⟩

/-- The mutable world the program touches: the scratch file `weather.xml`,
the module-level `city_weather_dict` (keyed by the object's `city_name`
value), the lines written to standard output, and the log of URLs handed
to `urllib.request.urlopen`, in order. -/
structure World where
  file : Option RawXml
  dict : PyVal → Option CityRecord
  printed : List String
  requests : List String

/-- Python dictionary assignment `d[k] = r`: total replacement of the entry
under `k`, all other keys untouched. -/
def dict_set (d : PyVal → Option CityRecord) (k : PyVal) (r : CityRecord) :
    PyVal → Option CityRecord :=
  fun q => if q = k then some r else d q

/-- The environment of one query: the outcome of `urllib.request.urlopen`
(a connection failure raises `urllib.error.URLError`, otherwise the
response body is read) and the outcome of writing the scratch file
(an `OSError` on failure). -/
structure Env where
  netResult : Except PyExc RawXml
  fileWriteResult : Except PyExc Unit

/-- The request URL string built at lines 93–96:
`SERVER_NAME + DATA_PATH + city + "&appid=" + key + "&mode=" + mode
+ "&units=" + api_units`. -/
def build_url (city api_key mode api_units : String) : String :=
  SERVER_NAME ++ DATA_PATH ++ city ++ "&appid=" ++ api_key ++ "&mode=" ++
    mode ++ "&units=" ++ api_units

/-- `create_city_weather_data_file`: look the object's units up in
`unit_conversion_dict` (a `KeyError` when absent), build the URL (a
`TypeError` when `city_name` or `api_key` is not a string, since they are
concatenated into the URL), issue the GET (whose failure propagates — the
call is not inside any `try`), then write the body to the scratch file
inside `try ... except WeatherException`, which prints and continues only
for a `WeatherException` and lets any other exception escape. -/
def create_city_weather_data_file (self : CityWeather) (env : Env)
    (w : World) : Except (World × PyExc) World := do
  let api_units ←
    match dict_getitem self.units with
    | some u => pure u
    | Option.none => throw (w, PyExc.keyError)
  let url ←
    match self.city_name, self.api_key with
    | PyVal.str c, PyVal.str k =>
      pure (build_url c k self.mode api_units)
    | _, _ => throw (w, PyExc.typeError)
  let w1 : World := { w with requests := w.requests ++ [url] }
  let xml_data ←
    match env.netResult with
    | Except.ok raw => pure raw
    | Except.error e => throw (w1, e)
  match env.fileWriteResult with
  | Except.ok _ => pure { w1 with file := some xml_data }
  | Except.error PyExc.weatherExc =>
    pure { w1 with printed :=
      w1.printed ++ ["File operations failed with error"] }
  | Except.error e => throw (w1, e)

/-- `xml.dom.minidom.parse(CITY_FILE_NAME)`: `ExpatError` on malformed
content, an `OSError` (`FileNotFoundError`) when the file is absent. -/
def parse_file : Option RawXml → Except PyExc (Option CurrentElem)
  | some (RawXml.wellFormed d) => Except.ok d
  | some RawXml.malformed => Except.error PyExc.expatError
  | Option.none => Except.error PyExc.osError

/-- `update_city_weather_dict`: fetch and write the scratch file, parse it
inside `try ... except WeatherException` (which prints and falls through
only for a `WeatherException`, leaving `document` unbound — a `NameError`
at the next line), extract the record, and store it in `city_weather_dict`
under the object's `city_name`. -/
def update_city_weather_dict (self : CityWeather) (env : Env)
    (w0 : World) : Except (World × PyExc) World := do
  let w1 ← create_city_weather_data_file self env w0
  let parsed ←
    match parse_file w1.file with
    | Except.ok d => pure (w1, some d)
    | Except.error PyExc.weatherExc =>
      pure ({ w1 with printed := w1.printed ++
        ["Parsing data file weather.xml failed with error"] },
        (Option.none : Option (Option CurrentElem)))
    | Except.error e => throw (w1, e)
  let w2 := parsed.fst
  let document ←
    match parsed.snd with
    | some d => pure d
    | Option.none => throw (w2, PyExc.nameError)
  let record ←
    match extract_record document with
    | Except.ok r => pure r
    | Except.error e => throw (w2, e)
  pure { w2 with dict := dict_set w2.dict self.city_name record }

/-- Python `str()` on the values of `PyVal`, as `%s` interpolation uses. -/
def pyStr : PyVal → String
  | PyVal.str s => s
  | PyVal.int n => toString n
  | PyVal.none => "None"

/-- One pass of Python `%`-formatting over the characters of the format
string: `%s` consumes the next argument (whose characters are copied, never
re-scanned), `%%` yields a literal `%`, every other character is copied. -/
def pyFormatAux : List Char → List String → List Char
  | [], _ => []
  | '%' :: 's' :: rest, a :: args => a.data ++ pyFormatAux rest args
  | '%' :: '%' :: rest, args => '%' :: pyFormatAux rest args
  | c :: rest, args => c :: pyFormatAux rest args

/-- Python `fmt % args` for the `%s`/`%%` subset this program uses. -/
def pyFormat (fmt : String) (args : List String) : String :=
  String.mk (pyFormatAux fmt.data args)

/-- The format string of `print_city_weather_report` (the six adjacent
string literals of the source, concatenated). -/
def report_format : String :=
  "Weather report for %s:\n" ++
  "Temperature is at %s %s\n" ++
  "Humidity is %s%s\n" ++
  "Wind is at %s speed meaning %s\n" ++
  "Air pressure is %s %s\n" ++
  "Clouds coverage is %s%% meaning %s\n"

/-- Python `str.lower()`: lower-case every character (the strings this
program prints are ASCII, where `Char.toLower` agrees with Python). -/
def str_lower (s : String) : String :=
  String.mk (s.data.map Char.toLower)

/-- The string printed by `print_city_weather_report` for a record that is
present in the dictionary: the format string interpolated with the stored
attribute strings, `wind_desc` and `clouds_desc` passed through
`str.lower()`. -/
def render_report (city_name : String) (r : CityRecord) : String :=
  pyFormat report_format
    [city_name, r.temperature_val, r.temp_unit, r.humidity_val,
     r.humidity_unit, r.wind_val, str_lower r.wind_desc, r.pressure_val,
     r.pressure_unit, r.clouds_val, str_lower r.clouds_desc]

/-- `print_city_weather_report`: look the object's `city_name` up in
`city_weather_dict` (a `KeyError` when absent) and print the formatted
report. -/
def print_city_weather_report (self : CityWeather) (w : World) :
    Except (World × PyExc) World :=
  match w.dict self.city_name with
  | some r =>
    Except.ok { w with printed :=
      w.printed ++ [render_report (pyStr self.city_name) r] }
  | Option.none => Except.error (w, PyExc.keyError)

/-- `run(city_name, units, api_key)`: construct the object through
`CityWeather.__init__` (no setter runs), update the dictionary, print the
report. -/
def run (city_name units api_key : PyVal) (env : Env) (w : World) :
    Except (World × PyExc) World := do
  let weather_obj := CityWeather.init city_name units api_key
  let w1 ← update_city_weather_dict weather_obj env w
  print_city_weather_report weather_obj w1

/-- `main()`: `argparse` accepts three positional string arguments and
rejects (with `SystemExit`) a `temp_units` outside its `choices`; the
accepted arguments are handed to the same constructor-update-print sequence
as `run`, again without invoking any setter. -/
def main (city_name temp_units api_key : String) (env : Env) (w : World) :
    Except (World × PyExc) World :=
  if temp_units = "kelvin" ∨ temp_units = "celsius" ∨
      temp_units = "fahrenheit" then
    run (PyVal.str city_name) (PyVal.str temp_units) (PyVal.str api_key)
      env w
  else
    Except.error (w, PyExc.systemExit)

/-- An object with the given city name, celsius units, and a string API
key: the arguments `run` passes for a typical query. -/
def city_obj (c : String) : CityWeather :=
  CityWeather.init (PyVal.str c) (PyVal.str "celsius") (PyVal.str "APIKEY")

/-- A concrete, fully populated object used to instantiate theorems about
the setters and the pipeline. -/
def sample_obj : CityWeather := city_obj "paris"

/-- An empty initial world: no scratch file, empty report dictionary,
nothing printed, no requests issued. -/
def world0 : World :=
  ⟨Option.none, fun _ => Option.none, [], []⟩

/-- A `current` element carrying every expected child, with the attribute
strings given. -/
def full_doc (tv tu hv hu wv wn pv pu cv cn : String) : CurrentElem :=
  ⟨some ⟨tv, tu⟩, some ⟨some ⟨wv, wn⟩⟩, some ⟨hv, hu⟩, some ⟨pv, pu⟩,
   some ⟨cv, cn⟩⟩

/-- An environment in which the GET succeeds with a well-formed document
and the scratch-file write succeeds. -/
def ok_env (doc : Option CurrentElem) : Env :=
  ⟨Except.ok (RawXml.wellFormed doc), Except.ok ()⟩

/-- The record extracted from the spec's sample XML fixture. -/
def fixture_record : CityRecord :=
  ⟨"15", "celsius", "60", "%", "3", "Light breeze", "1012", "hPa", "40",
   "scattered clouds"⟩

/-- Whether the parsed document carries the `current` element and every
child element the parser indexes (`temperature`, `humidity`, `wind` with
its `speed`, `clouds`, `pressure`). -/
def all_elements_present : Option CurrentElem → Bool
  | Option.none => false
  | some d =>
    d.temperature.isSome && d.humidity.isSome &&
    (match d.wind with
     | some w => w.speed.isSome
     | Option.none => false) &&
    d.pressure.isSome && d.clouds.isSome

end Weather

namespace Weather

set_option maxRecDepth 16384

/-- `Except.ok` on the left of a bind steps to the continuation; unfolding
lemma for proofs about the do-chains of the embedding. -/
theorem except_ok_bind {ε α β : Type} (a : α) (f : α → Except ε β) :
    (Except.ok a : Except ε α) >>= f = f a := rfl

/-- `pure` in the `Except` monad is `Except.ok`. -/
theorem except_pure {ε α : Type} (a : α) :
    (pure a : Except ε α) = Except.ok a := rfl

/-- `Except.error` on the left of a bind short-circuits. -/
theorem except_error_bind {ε α β : Type} (e : ε) (f : α → Except ε β) :
    (Except.error e : Except ε α) >>= f = Except.error e := rfl

/-- `throw` in the `Except` monad is `Except.error`. -/
theorem except_throw {ε α : Type} (e : ε) :
    (throw e : Except ε α) = Except.error e := rfl

/-- Fetching with a `city_obj` in an environment where the GET and the
file write succeed: the URL built from the object's fields is requested and
the raw body lands in the scratch file. -/
theorem create_ok (c : String) (raw : RawXml) (w : World) :
    create_city_weather_data_file (city_obj c)
        ⟨Except.ok raw, Except.ok ()⟩ w =
      Except.ok { w with
        file := some raw,
        requests :=
          w.requests ++ [build_url c "APIKEY" "xml" "metric"] } := rfl

/-- Extraction from a document carrying every expected element: each stored
value is the attribute string received; the temperature unit is reverse
mapped to "celsius" exactly when the provider token is "metric". -/
theorem extract_record_full (tv tu hv hu wv wn pv pu cv cn : String) :
    extract_record (some (full_doc tv tu hv hu wv wn pv pu cv cn)) =
      Except.ok ⟨tv, if tu = "metric" then "celsius" else tu, hv, hu, wv,
        wn, pv, pu, cv, cn⟩ := by
  by_cases h : tu = "metric"
  · subst h
    rfl
  · simp only [full_doc, extract_record, index0, except_ok_bind, if_neg h]

/-- A full query with a `city_obj` in a benign environment: the URL is
requested, the body is written to the scratch file, and the extracted
record is stored under the object's `city_name`. -/
theorem update_full_ok (c : String) (w : World)
    (tv tu hv hu wv wn pv pu cv cn : String) :
    update_city_weather_dict (city_obj c)
        (ok_env (some (full_doc tv tu hv hu wv wn pv pu cv cn))) w =
      Except.ok
        { w with
          file := some (RawXml.wellFormed
            (some (full_doc tv tu hv hu wv wn pv pu cv cn))),
          dict := dict_set w.dict (PyVal.str c)
            ⟨tv, if tu = "metric" then "celsius" else tu, hv, hu, wv, wn,
             pv, pu, cv, cn⟩,
          requests :=
            w.requests ++ [build_url c "APIKEY" "xml" "metric"] } := by
  simp only [update_city_weather_dict, ok_env, create_ok, except_ok_bind,
    except_pure, parse_file, extract_record_full]
  rfl

/-- Claim C1: the claim states that assigning any of `kelvin`, `celsius`,
`fahrenheit` through the `units` setter succeeds.  The code's loop raises
`WeatherException` at the first dictionary key that differs from the value,
and every value differs from at least one of the first two keys, so the
setter raises for every input — including the three valid units.  The
token mapping itself (`unit_conversion_dict`) is as the claim says; see
the request-URL theorem.  This contradicts the setter's own error message
("enter only dict_keys([...])") and leaves its final `self.__units = val`
line unreachable: the code is a slip, the claim records the intent. -/
theorem c1_units_setter_always_raises :
    ∀ (self : CityWeather) (val : PyVal),
      units_setter self val = Except.error PyExc.weatherExc := by
  intro self val
  by_cases h : val = PyVal.str "fahrenheit"
  · subst h
    rfl
  · simp [units_setter, unit_conversion_dict, units_setter_loop, h]

/-- Claim C2: the claim states that assigning a non-empty string through
the `api_key` setter stores it.  The setter's body assigns to the property
itself (`self.api_key = val`), re-entering the setter with the same value:
a truthy value recurses until Python's `RecursionError`, and the private
field is never written.  The empty/absent branch (raise `WeatherException`)
behaves as claimed.  The intended target was plainly the private field, so
the code is a slip and the claim records the intent. -/
theorem c2_api_key_setter_never_stores :
    (∀ (fuel : Nat) (self : CityWeather) (val : PyVal),
      truthy val = true →
        api_key_setter fuel self val = SetOutcome.recursionError) ∧
    (∀ (fuel : Nat) (self : CityWeather),
      api_key_setter (fuel + 1) self PyVal.none =
        SetOutcome.exc PyExc.weatherExc) := by
  constructor
  · intro fuel
    induction fuel with
    | zero =>
      intro self val _
      rfl
    | succ f ih =>
      intro self val h
      simp only [api_key_setter, h, if_true]
      exact ih self val h
  · intro fuel self
    rfl

/-- Witness for C2: the non-empty key "abc" is truthy, and the setter ends
in `RecursionError` at recursion budget 100. -/
theorem c2_api_key_setter_never_stores_witness :
    truthy (PyVal.str "abc") = true ∧
      api_key_setter 100 sample_obj (PyVal.str "abc") =
        SetOutcome.recursionError :=
  ⟨by decide, c2_api_key_setter_never_stores.1 100 sample_obj
    (PyVal.str "abc") (by decide)⟩

/-- Counterexample to claim C6 as stated: the claim says the empty string
fails with `ValidationError`, but the `city_name` setter checks only
`type(val) is not str` and accepts `""`, storing it. -/
theorem c6_empty_city_name_accepted :
    city_name_setter sample_obj (PyVal.str "") =
      Except.ok { sample_obj with city_name := PyVal.str "" } := rfl

/-- Claim C6 (amended): assigning a non-string value (a number or `None`)
through the `city_name` setter fails with `WeatherException`; assigning any
string — including multi-word names and the empty string — succeeds and
stores the value. -/
theorem c6_city_name_setter_type_check_only :
    (∀ (self : CityWeather) (s : String),
      city_name_setter self (PyVal.str s) =
        Except.ok { self with city_name := PyVal.str s }) ∧
    (∀ (self : CityWeather) (n : Int),
      city_name_setter self (PyVal.int n) =
        Except.error PyExc.weatherExc) ∧
    (∀ self : CityWeather,
      city_name_setter self PyVal.none = Except.error PyExc.weatherExc) :=
  ⟨fun _ _ => rfl, fun _ _ => rfl, fun _ => rfl⟩

/-- Claim C3: the claim states that network, file, and parse errors are
caught where they occur and reported via a printed message, the sequence
halting with the report mapping unchanged.  In the code the `except`
clauses catch only `WeatherException`, which none of the fetch, write, or
parse operations raise: a `URLError` from `urlopen` (not inside any `try`),
an `OSError` from the file write, and an `ExpatError` from the parse all
propagate out of `update_city_weather_dict` uncaught.  The three conjuncts
show each exception escaping with nothing printed (the escaping world keeps
`w.printed` and `w.dict` untouched); the halt and the unchanged report
mapping hold, the catch-and-print does not, so the handlers — whose intent
the claim records — are dead code and the code is a slip. -/
theorem c3_errors_propagate_uncaught :
    (∀ w : World,
      update_city_weather_dict sample_obj
          ⟨Except.error PyExc.urlError, Except.ok ()⟩ w =
        Except.error
          ({ w with requests :=
              w.requests ++ [build_url "paris" "APIKEY" "xml" "metric"] },
           PyExc.urlError)) ∧
    (∀ w : World,
      update_city_weather_dict sample_obj
          ⟨Except.ok RawXml.malformed, Except.ok ()⟩ w =
        Except.error
          ({ w with
              file := some RawXml.malformed,
              requests :=
                w.requests ++ [build_url "paris" "APIKEY" "xml" "metric"] },
           PyExc.expatError)) ∧
    (∀ w : World,
      update_city_weather_dict sample_obj
          ⟨Except.ok RawXml.malformed, Except.error PyExc.osError⟩ w =
        Except.error
          ({ w with requests :=
              w.requests ++ [build_url "paris" "APIKEY" "xml" "metric"] },
           PyExc.osError)) :=
  ⟨fun _ => rfl, fun _ => rfl, fun _ => rfl⟩

/-- Claim C4: for every parsed document in which an expected element is
missing (the `current` element itself, `temperature`, `humidity`, `wind`,
its `speed` child, `pressure`, or `clouds`), extraction fails — the
missing-element failure the spec calls `ParseError`, realised by the list
indexing `[0]` raising `IndexError` — and a full query in that environment
ends in that exception with the report dictionary untouched. -/
theorem c4_missing_element_no_entry :
    (∀ doc : Option CurrentElem,
      all_elements_present doc = false →
        extract_record doc = Except.error PyExc.indexError) ∧
    (∀ (doc : Option CurrentElem) (w : World),
      all_elements_present doc = false →
        update_city_weather_dict sample_obj (ok_env doc) w =
          Except.error
            ({ w with
                file := some (RawXml.wellFormed doc),
                requests := w.requests ++
                  [build_url "paris" "APIKEY" "xml" "metric"] },
             PyExc.indexError)) := by
  have part1 : ∀ doc : Option CurrentElem,
      all_elements_present doc = false →
        extract_record doc = Except.error PyExc.indexError := by
    intro doc h
    rcases doc with _ | ⟨_ | ⟨tval, tunit⟩, _ | ⟨_ | ⟨sv, sn⟩⟩,
      _ | ⟨hv2, hu2⟩, _ | ⟨pv2, pu2⟩, _ | ⟨cv2, cn2⟩⟩ <;>
      first
        | rfl
        | (obtain hmu | hmu := eq_or_ne tunit "metric"
           · subst hmu
             rfl
           · simp only [extract_record, index0, except_ok_bind,
               except_error_bind, if_neg hmu])
        | (simp [all_elements_present] at h)
  refine ⟨part1, ?_⟩
  intro doc w h
  simp only [update_city_weather_dict, ok_env, sample_obj, create_ok,
    except_ok_bind, except_pure, except_throw, except_error_bind,
    parse_file, part1 doc h]

/-- Witness for C4: the spec's missing-`wind` document — `temperature`,
`humidity`, `pressure` and `clouds` present, `wind` absent — fails
extraction with the index error and leaves the empty world's dictionary
empty. -/
theorem c4_missing_element_no_entry_witness :
    all_elements_present (some ⟨some ⟨"15", "metric"⟩, Option.none,
        some ⟨"60", "%"⟩, some ⟨"1012", "hPa"⟩,
        some ⟨"40", "scattered clouds"⟩⟩) = false ∧
    extract_record (some ⟨some ⟨"15", "metric"⟩, Option.none,
        some ⟨"60", "%"⟩, some ⟨"1012", "hPa"⟩,
        some ⟨"40", "scattered clouds"⟩⟩) =
      Except.error PyExc.indexError ∧
    update_city_weather_dict sample_obj
        (ok_env (some ⟨some ⟨"15", "metric"⟩, Option.none, some ⟨"60", "%"⟩,
          some ⟨"1012", "hPa"⟩, some ⟨"40", "scattered clouds"⟩⟩)) world0 =
      Except.error
        ({ world0 with
            file := some (RawXml.wellFormed (some ⟨some ⟨"15", "metric"⟩,
              Option.none, some ⟨"60", "%"⟩, some ⟨"1012", "hPa"⟩,
              some ⟨"40", "scattered clouds"⟩⟩)),
            requests := world0.requests ++
              [build_url "paris" "APIKEY" "xml" "metric"] },
         PyExc.indexError) :=
  ⟨rfl,
   c4_missing_element_no_entry.1 _ rfl,
   c4_missing_element_no_entry.2 _ world0 rfl⟩

/-- Claim C5: extraction from a well-formed response stores every value as
the attribute string received, with no numeric coercion; the stored
temperature unit is "celsius" exactly when the provider's unit attribute is
"metric" and is otherwise the provider's attribute string unchanged.  The
second conjunct instantiates the spec's sample fixture. -/
theorem c5_extraction_verbatim_with_metric_reverse_map :
    (∀ tv tu hv hu wv wn pv pu cv cn : String,
      extract_record (some (full_doc tv tu hv hu wv wn pv pu cv cn)) =
        Except.ok ⟨tv, if tu = "metric" then "celsius" else tu, hv, hu, wv,
          wn, pv, pu, cv, cn⟩) ∧
    extract_record (some (full_doc "15" "metric" "60" "%" "3" "Light breeze"
        "1012" "hPa" "40" "scattered clouds")) =
      Except.ok fixture_record :=
  ⟨extract_record_full, by rfl⟩

/-- Claim C7: the rendered report interpolates the stored attribute
strings into the fixed template verbatim, except that the wind description
and the cloud description pass through `str.lower()`.  The second conjunct
instantiates the record parsed from the spec's fixture, where
"Light breeze" appears as "light breeze" and "scattered clouds" stays
"scattered clouds". -/
theorem c7_render_lowercases_descriptions_only :
    (∀ (city : String) (r : CityRecord),
      render_report city r =
        "Weather report for " ++ city ++ ":\n" ++
        "Temperature is at " ++ r.temperature_val ++ " " ++ r.temp_unit ++
        "\n" ++
        "Humidity is " ++ r.humidity_val ++ r.humidity_unit ++ "\n" ++
        "Wind is at " ++ r.wind_val ++ " speed meaning " ++
        str_lower r.wind_desc ++ "\n" ++
        "Air pressure is " ++ r.pressure_val ++ " " ++ r.pressure_unit ++
        "\n" ++
        "Clouds coverage is " ++ r.clouds_val ++ "% meaning " ++
        str_lower r.clouds_desc ++ "\n") ∧
    render_report "tel aviv" fixture_record =
      "Weather report for tel aviv:\nTemperature is at 15 celsius\nHumidity is 60%\nWind is at 3 speed meaning light breeze\nAir pressure is 1012 hPa\nClouds coverage is 40% meaning scattered clouds\n" := by
  constructor
  · intro city r
    refine String.ext ?_
    simp only [render_report, pyFormat, report_format, String.data_append,
      List.append_assoc]
    rfl
  · rfl

/-- Claim C8: when two queries for the same city both succeed in sequence,
the second parsed record replaces the first entirely: the final dictionary
is the intermediate one overwritten at that key, the entry equals the
record extracted from the second response alone, and at every key the
final dictionary coincides with writing only the second record over the
original dictionary — no field of the first record survives. -/
theorem c8_last_write_wins :
    ∀ (c : String) (w w1 w2 : World)
      (tv1 tu1 hv1 hu1 wv1 wn1 pv1 pu1 cv1 cn1
       tv2 tu2 hv2 hu2 wv2 wn2 pv2 pu2 cv2 cn2 : String),
      update_city_weather_dict (city_obj c)
          (ok_env (some (full_doc tv1 tu1 hv1 hu1 wv1 wn1 pv1 pu1 cv1 cn1)))
          w = Except.ok w1 →
      update_city_weather_dict (city_obj c)
          (ok_env (some (full_doc tv2 tu2 hv2 hu2 wv2 wn2 pv2 pu2 cv2 cn2)))
          w1 = Except.ok w2 →
      w2.dict = dict_set w1.dict (PyVal.str c)
          ⟨tv2, if tu2 = "metric" then "celsius" else tu2, hv2, hu2, wv2,
           wn2, pv2, pu2, cv2, cn2⟩ ∧
      w2.dict (PyVal.str c) =
        some ⟨tv2, if tu2 = "metric" then "celsius" else tu2, hv2, hu2, wv2,
          wn2, pv2, pu2, cv2, cn2⟩ ∧
      (∀ k : PyVal, w2.dict k = dict_set w.dict (PyVal.str c)
          ⟨tv2, if tu2 = "metric" then "celsius" else tu2, hv2, hu2, wv2,
           wn2, pv2, pu2, cv2, cn2⟩ k) := by
  intro c w w1 w2 tv1 tu1 hv1 hu1 wv1 wn1 pv1 pu1 cv1 cn1
    tv2 tu2 hv2 hu2 wv2 wn2 pv2 pu2 cv2 cn2 h1 h2
  rw [update_full_ok] at h1 h2
  obtain rfl := Except.ok.inj h1
  obtain rfl := Except.ok.inj h2
  refine ⟨rfl, ?_, ?_⟩
  · simp [dict_set]
  · intro k
    by_cases hk : k = PyVal.str c <;> simp [dict_set, hk]

/-- The world after the first of the two C8 witness queries. -/
def w8_one : World :=
  { world0 with
    file := some (RawXml.wellFormed
      (some (full_doc "a1" "x1" "b1" "y1" "c1" "z1" "d1" "u1" "e1" "v1"))),
    dict := dict_set world0.dict (PyVal.str "tel aviv")
      ⟨"a1", "x1", "b1", "y1", "c1", "z1", "d1", "u1", "e1", "v1"⟩,
    requests :=
      world0.requests ++ [build_url "tel aviv" "APIKEY" "xml" "metric"] }

/-- The world after the second of the two C8 witness queries. -/
def w8_two : World :=
  { w8_one with
    file := some (RawXml.wellFormed
      (some (full_doc "a2" "x2" "b2" "y2" "c2" "z2" "d2" "u2" "e2" "v2"))),
    dict := dict_set w8_one.dict (PyVal.str "tel aviv")
      ⟨"a2", "x2", "b2", "y2", "c2", "z2", "d2", "u2", "e2", "v2"⟩,
    requests :=
      w8_one.requests ++ [build_url "tel aviv" "APIKEY" "xml" "metric"] }

/-- Witness for C8: after two concrete successful queries for "tel aviv",
the stored entry is exactly the second record. -/
theorem c8_last_write_wins_witness :
    w8_two.dict (PyVal.str "tel aviv") =
      some ⟨"a2", "x2", "b2", "y2", "c2", "z2", "d2", "u2", "e2", "v2"⟩ :=
  (c8_last_write_wins "tel aviv" world0 w8_one w8_two
    "a1" "x1" "b1" "y1" "c1" "z1" "d1" "u1" "e1" "v1"
    "a2" "x2" "b2" "y2" "c2" "z2" "d2" "u2" "e2" "v2"
    (by rfl) (by rfl)).2.1

/-- Claim C9: `unit_conversion_dict` maps kelvin, celsius, fahrenheit to
the provider tokens "", "metric", "imperial"; and for every city, key and
units value whose token is defined, the fetch step requests exactly the
base host followed by `/data/2.5/weather?q=`, the city, `&appid=`, the
key, `&mode=xml&units=`, and the token. -/
theorem c9_request_url :
    (dict_getitem (PyVal.str "kelvin") = some "" ∧
     dict_getitem (PyVal.str "celsius") = some "metric" ∧
     dict_getitem (PyVal.str "fahrenheit") = some "imperial") ∧
    (∀ (city key units token : String) (raw : RawXml) (w : World),
      dict_getitem (PyVal.str units) = some token →
        create_city_weather_data_file
            (CityWeather.init (PyVal.str city) (PyVal.str units)
              (PyVal.str key)) ⟨Except.ok raw, Except.ok ()⟩ w =
          Except.ok { w with
            file := some raw,
            requests := w.requests ++
              [SERVER_NAME ++ "/data/2.5/weather?q=" ++ city ++
                "&appid=" ++ key ++ "&mode=xml&units=" ++ token] }) := by
  refine ⟨⟨rfl, rfl, rfl⟩, ?_⟩
  intro city key units token raw w h
  have hurl : build_url city key "xml" token =
      SERVER_NAME ++ "/data/2.5/weather?q=" ++ city ++ "&appid=" ++ key ++
        "&mode=xml&units=" ++ token := by
    refine String.ext ?_
    simp only [build_url, SERVER_NAME, DATA_PATH, String.data_append,
      List.append_assoc]
    rfl
  simp only [create_city_weather_data_file, CityWeather.init, h,
    except_ok_bind, except_pure, hurl]

/-- Witness for C9: the celsius token is defined as "metric", and a
concrete fetch for "tel aviv" requests exactly the claimed URL. -/
theorem c9_request_url_witness :
    dict_getitem (PyVal.str "celsius") = some "metric" ∧
    create_city_weather_data_file
        (CityWeather.init (PyVal.str "tel aviv") (PyVal.str "celsius")
          (PyVal.str "KEY")) ⟨Except.ok RawXml.malformed, Except.ok ()⟩
        world0 =
      Except.ok { world0 with
        file := some RawXml.malformed,
        requests := world0.requests ++
          [SERVER_NAME ++ "/data/2.5/weather?q=" ++ "tel aviv" ++
            "&appid=" ++ "KEY" ++ "&mode=xml&units=" ++ "metric"] } :=
  ⟨rfl, c9_request_url.2 "tel aviv" "KEY" "celsius" "metric"
    RawXml.malformed world0 rfl⟩

/-- Claim C10: `__init__` validates nothing — for every combination of
arguments, including a numeric city name, an unrecognised units value and
an absent API key, construction succeeds and stores the arguments
unchanged — and the `run` path built on it reaches the fetch step, where
the invalid units surface as a `KeyError` from the provider-token lookup
rather than any `WeatherException`, even though each setter would have
rejected these same values; `main` delegates to the same
constructor-based path. -/
theorem c10_constructor_bypasses_validation :
    (∀ c u k : PyVal, CityWeather.init c u k = ⟨c, u, k, "xml"⟩) ∧
    (∀ (env : Env) (w : World),
      run (PyVal.int 7) (PyVal.str "bogus") PyVal.none env w =
        Except.error (w, PyExc.keyError)) ∧
    (city_name_setter sample_obj (PyVal.int 7) =
      Except.error PyExc.weatherExc) ∧
    (units_setter sample_obj (PyVal.str "bogus") =
      Except.error PyExc.weatherExc) ∧
    (∀ fuel : Nat, api_key_setter (fuel + 1) sample_obj PyVal.none =
      SetOutcome.exc PyExc.weatherExc) ∧
    (∀ (env : Env) (w : World),
      main "tel aviv" "celsius" "KEY" env w =
        run (PyVal.str "tel aviv") (PyVal.str "celsius") (PyVal.str "KEY")
          env w) :=
  ⟨fun _ _ _ => rfl, fun _ _ => rfl, rfl, rfl, fun _ => rfl,
   fun _ _ => rfl⟩

end Weather
